import Mathlib

/-!
Verification development for the tippytap TUN/TAP library (src/unix/utils.rs,
src/unix/device.rs, src/error.rs), shallowly embedded in Lean 4.

Modelling choices:
* A Rust `&str` is a list of Unicode scalar values (`List Nat`), each the code
  point of one `char`.  `str::len()` is the UTF-8 byte length, `str::bytes()`
  the UTF-8 byte sequence, `str::chars().position(..)` an index into the char
  list — all embedded below.
* A `c_char` buffer entry is its byte value `0..255` (`Nat`); signedness of
  `c_char` only matters through `== 0` and `as u8`, both transparent here.
* Fallible functions return `Except StringError _` / `Except CreationError _`.
* I/O outcomes (opening `/dev/net/tun`, the ioctl, the kernel-written name)
  are inputs to the embedded `DeviceBuilder.open`, supplied in an `Env`.
-/

deriving instance DecidableEq for Except

namespace Tippytap

/-- `IFNAMSIZ`, the kernel constant: buffer capacity in bytes (Linux: 16). -/
def IFNAMSIZ : Nat := 16

/-- `StringError` from src/error.rs. -/
inductive StringError where
  | StringTooLong (cap : Nat)
  | UnexpectedNull (pos : Nat)
  | InvalidCharacter (pos : Nat)
  | MangledString
deriving DecidableEq, Repr

/-- UTF-8 encoding of one Unicode scalar value, as `str::bytes()` yields it. -/
def utf8Bytes (c : Nat) : List Nat :=
  if c < 0x80 then [c]
  else if c < 0x800 then [0xC0 + c / 64, 0x80 + c % 64]
  else if c < 0x10000 then [0xE0 + c / 4096, 0x80 + (c / 64) % 64, 0x80 + c % 64]
  else [0xF0 + c / 262144, 0x80 + (c / 4096) % 64, 0x80 + (c / 64) % 64, 0x80 + c % 64]

/-- `str::bytes()` over the whole string. -/
def strBytes (s : List Nat) : List Nat := s.flatMap utf8Bytes

/-- `str::len()`: the UTF-8 byte length. -/
def strLen (s : List Nat) : Nat := (strBytes s).length

/-- `char::is_ascii`. -/
def isAscii (c : Nat) : Bool := c ≤ 0x7F

/-- `InterfaceName` from src/unix/utils.rs: a `[c_char; IFNAMSIZ]` buffer,
entries modelled by their byte values. -/
structure InterfaceName where
  name : List Nat
deriving DecidableEq, Repr

namespace InterfaceName

/-- `InterfaceName::empty`: the all-zero buffer. -/
def empty : InterfaceName := ⟨List.replicate IFNAMSIZ 0⟩

/-- The scan predicate of `InterfaceName::from_str` line 58, verbatim:
`!x.is_ascii() || (x as u8) != 0` (the `as u8` truncates the scalar value). -/
def scanPred (c : Nat) : Bool := (!isAscii c) || (c % 256 != 0)

/-- `InterfaceName::from_str` (src/unix/utils.rs:51-74): empty string gives the
empty buffer; otherwise scan chars with `scanPred` and fail `InvalidCharacter`
at the first hit; then fail `StringTooLong IFNAMSIZ` when `len ≥ IFNAMSIZ`;
otherwise copy the bytes into a zero-initialised `IFNAMSIZ` buffer
(`buf.iter_mut().zip(name.bytes())` copies `min (IFNAMSIZ) len` bytes). -/
def from_str (s : List Nat) : Except StringError InterfaceName :=
  if strLen s = 0 then .ok empty
  else match s.findIdx? scanPred with
    | some pos => .error (.InvalidCharacter pos)
    | none =>
      if strLen s ≥ IFNAMSIZ then .error (.StringTooLong IFNAMSIZ)
      else .ok ⟨(strBytes s).take IFNAMSIZ ++
                List.replicate (IFNAMSIZ - strLen s) 0⟩

/-- The decoding loop of `InterfaceName::to_string`: walk the slice before the
terminator, pushing each byte reinterpreted as a char, failing
`InvalidCharacter pos` at the first byte outside the ASCII range. -/
def decodeLoop : List Nat → Nat → Except StringError (List Nat)
  | [], _ => .ok []
  | b :: rest, pos =>
    if isAscii b then (decodeLoop rest (pos + 1)).map (b :: ·)
    else .error (.InvalidCharacter pos)

/-- `InterfaceName::to_string` (src/unix/utils.rs:82-97): find the first zero
byte (else `MangledString`), then decode the slice before it. -/
def to_string (b : InterfaceName) : Except StringError (List Nat) :=
  match b.name.findIdx? (· == 0) with
  | none => .error .MangledString
  | some e => decodeLoop (b.name.take e) 0

end InterfaceName

/-- The observable result of trying to open `/dev/net/tun`: `std::io::ErrorKind`
of the failure, with the kinds the source matches on as distinguished
constructors and every remaining kind as `Other`. -/
inductive IOErrorKind where
  | NotFound
  | PermissionDenied
  | Other (code : Nat)
deriving DecidableEq, Repr

/-- `CreationError` from src/error.rs; `IoctlError` carries the OS errno. -/
inductive CreationError where
  | FileNotFound
  | PermissionDenied
  | UnableToOpenFile (kind : IOErrorKind)
  | IoctlError (errno : Nat)
  | InvalidName (e : StringError)
deriving DecidableEq, Repr

/-- `get_fd` (src/unix/utils.rs:12-24): maps the open outcome's error kind,
`NotFound ↦ FileNotFound`, `PermissionDenied ↦ PermissionDenied`, anything else
to `UnableToOpenFile` around the underlying kind.  The opened `File` carries no
data the development reasons about, so it is `Unit`. -/
def get_fd (openResult : Except IOErrorKind Unit) : Except CreationError Unit :=
  match openResult with
  | .ok _ => .ok ()
  | .error k =>
    .error (match k with
      | .NotFound => .FileNotFound
      | .PermissionDenied => .PermissionDenied
      | kind => .UnableToOpenFile kind)

/-- `InterfaceRequest` (src/unix/utils.rs:149-152): the name together with the
field-replace union, of which only the `flags : c_short` member is ever
written or read by this core, so the union is modelled by that member. -/
structure InterfaceRequest where
  name : InterfaceName
  flags : Nat
deriving DecidableEq, Repr

/-- `InterfaceRequest::tun_set_request` (src/unix/utils.rs:172-177). -/
def InterfaceRequest.tun_set_request (device_name : List Nat) (flags : Nat) :
    Except StringError InterfaceRequest :=
  (InterfaceName.from_str device_name).map fun n => ⟨n, flags⟩

/-- `tun_set_interface` (src/unix/utils.rs:199-206): the ioctl outcome is an
input; a failure becomes `IoctlError errno`.  On success the kernel has
overwritten the request's name in place; that mutation is applied by the
caller (`DeviceBuilder.open`) from its environment. -/
def tun_set_interface (ioctlResult : Except Nat Unit) : Except CreationError Unit :=
  match ioctlResult with
  | .ok _ => .ok ()
  | .error errno => .error (.IoctlError errno)

/-- `IFF_TUN` from the Linux headers. -/
def IFF_TUN : Nat := 0x0001
/-- `IFF_TAP` from the Linux headers. -/
def IFF_TAP : Nat := 0x0002
/-- `IFF_NO_PI` from the Linux headers. -/
def IFF_NO_PI : Nat := 0x1000

/-- `DeviceMode` (src/unix/device.rs:17-20). -/
inductive DeviceMode where
  | Tun
  | Tap
deriving DecidableEq, Repr

/-- `DeviceBuilder` (src/unix/device.rs:30-34). -/
structure DeviceBuilder where
  name : Option (List Nat)
  mode : DeviceMode
  packet_info : Bool
deriving DecidableEq, Repr

/-- `Device` (src/unix/device.rs:116-120), minus the file handle. -/
structure Device where
  name : List Nat
  mode : DeviceMode
deriving DecidableEq, Repr

/-- The flags computation of `DeviceBuilder::open` (src/unix/device.rs:86-95):
start from 0, OR in the mode bit, then OR in `IFF_NO_PI` when packet info is
disabled.  All values fit a `c_short`, so the final `as c_short` cast is the
identity. -/
def computeFlags (mode : DeviceMode) (packet_info : Bool) : Nat :=
  let f : Nat := 0
  let f := if mode = DeviceMode.Tun then f ||| IFF_TUN else f ||| IFF_TAP
  if !packet_info then f ||| IFF_NO_PI else f

/-- The request-building step of `DeviceBuilder::open` (src/unix/device.rs:
97-101): `tun_set_request` on the configured name (empty string when none) and
the computed flags. -/
def buildRequest (b : DeviceBuilder) : Except StringError InterfaceRequest :=
  InterfaceRequest.tun_set_request (b.name.getD []) (computeFlags b.mode b.packet_info)

/-- The I/O environment `DeviceBuilder.open` runs against: the outcome of
opening `/dev/net/tun`, the outcome of the ioctl, and the name the kernel
writes back into the request when the ioctl succeeds. -/
structure Env where
  openResult : Except IOErrorKind Unit
  ioctlResult : Except Nat Unit
  kernelName : InterfaceName
deriving DecidableEq, Repr

/-- `DeviceBuilder::open` (src/unix/device.rs:79-112): open the device file,
build the request, issue the ioctl (on success the kernel replaces the
request's name with `env.kernelName`), decode the resulting name, return the
`Device`.  Each `?` on a `StringError` converts it to
`CreationError.InvalidName` (the `#[from]` conversion in src/error.rs); the
errors of `get_fd` and `tun_set_interface` are already `CreationError` and
propagate unchanged. -/
def DeviceBuilder.open (b : DeviceBuilder) (env : Env) : Except CreationError Device :=
  match get_fd env.openResult with
  | .error e => .error e
  | .ok _ =>
    match buildRequest b with
    | .error e => .error (.InvalidName e)
    | .ok ifreq =>
      match tun_set_interface env.ioctlResult with
      | .error e => .error e
      | .ok _ =>
        let ifreq : InterfaceRequest := { ifreq with name := env.kernelName }
        match ifreq.name.to_string with
        | .error e => .error (.InvalidName e)
        | .ok name => .ok { name := name, mode := b.mode }

/-! ### Helper lemmas -/

/-- The decoding loop only ever fails with `InvalidCharacter`. -/
lemma decodeLoop_error {l : List Nat} {pos : Nat} {e : StringError}
    (h : InterfaceName.decodeLoop l pos = .error e) : ∃ p, e = .InvalidCharacter p := by
  induction l generalizing pos with
  | nil => simp [InterfaceName.decodeLoop] at h
  | cons b rest ih =>
    rw [InterfaceName.decodeLoop] at h
    by_cases hb : isAscii b
    · simp only [hb, if_pos] at h
      cases hrest : InterfaceName.decodeLoop rest (pos + 1) with
      | ok v => rw [hrest] at h; simp [Except.map] at h
      | error e2 =>
        rw [hrest] at h
        simp only [Except.map] at h
        cases h
        exact ih hrest
    · simp only [hb, if_neg, if_false] at h
      cases h
      exact ⟨pos, rfl⟩

/-- `to_string` only ever fails with `MangledString` or `InvalidCharacter`. -/
lemma to_string_error {b : InterfaceName} {e : StringError}
    (h : b.to_string = .error e) :
    e = .MangledString ∨ ∃ p, e = .InvalidCharacter p := by
  rw [InterfaceName.to_string] at h
  cases hidx : b.name.findIdx? (· == 0) with
  | none => rw [hidx] at h; cases h; exact Or.inl rfl
  | some i => rw [hidx] at h; exact Or.inr (decodeLoop_error h)

/-- `to_string` fails with `MangledString` exactly when the buffer has no zero
byte. -/
lemma to_string_mangled_iff (b : InterfaceName) :
    b.to_string = .error .MangledString ↔ 0 ∉ b.name := by
  rw [InterfaceName.to_string]
  cases hidx : b.name.findIdx? (· == 0) with
  | none =>
    rw [List.findIdx?_eq_none_iff] at hidx
    simp only [true_iff, reduceCtorEq]
    intro hmem
    have := hidx 0 hmem
    simp at this
  | some i =>
    rw [List.findIdx?_eq_some_iff_getElem] at hidx
    obtain ⟨hlt, hz, -⟩ := hidx
    constructor
    · intro h
      obtain ⟨p, hp⟩ := decodeLoop_error h
      cases hp
    · intro h
      exfalso
      apply h
      have hz0 : b.name[i] = 0 := by simpa using hz
      rw [← hz0]
      exact List.getElem_mem hlt

/-- `from_str` only ever fails with `InvalidCharacter` or
`StringTooLong IFNAMSIZ`. -/
lemma from_str_error {s : List Nat} {e : StringError}
    (h : InterfaceName.from_str s = .error e) :
    (∃ p, e = .InvalidCharacter p) ∨ e = .StringTooLong IFNAMSIZ := by
  rw [InterfaceName.from_str] at h
  by_cases h0 : strLen s = 0
  · simp [h0] at h
  · simp only [h0, if_neg, if_false] at h
    cases hidx : s.findIdx? InterfaceName.scanPred with
    | some pos => rw [hidx] at h; cases h; exact Or.inl ⟨pos, rfl⟩
    | none =>
      rw [hidx] at h
      by_cases hlen : strLen s ≥ IFNAMSIZ
      · simp only [hlen, if_pos] at h; cases h; exact Or.inr rfl
      · simp [hlen] at h

/-- Shape of a successful `from_str`: the buffer is full-capacity and its last
byte is zero (so the text occupies at most `IFNAMSIZ - 1` bytes). -/
lemma from_str_ok {s : List Nat} {n : InterfaceName}
    (h : InterfaceName.from_str s = .ok n) :
    n.name.length = IFNAMSIZ ∧ n.name[IFNAMSIZ - 1]? = some 0 := by
  rw [InterfaceName.from_str] at h
  by_cases h0 : strLen s = 0
  · simp only [h0, if_pos] at h
    cases h
    constructor <;> decide
  · simp only [h0, if_neg, if_false] at h
    cases hidx : s.findIdx? InterfaceName.scanPred with
    | some pos => rw [hidx] at h; cases h
    | none =>
      rw [hidx] at h
      by_cases hlen : strLen s ≥ IFNAMSIZ
      · simp [hlen] at h
      · simp only [hlen, if_neg, if_false] at h
        cases h
        push_neg at hlen
        have hsb : (strBytes s).length = strLen s := rfl
        have htake : (strBytes s).take IFNAMSIZ = strBytes s :=
          List.take_of_length_le (by omega)
        constructor
        · simp [htake, hsb]
          omega
        · rw [htake, List.getElem?_append_right (by omega),
            List.getElem?_replicate, if_pos (by omega)]

/-- A failing `tun_set_request` surfaces exactly the error of `from_str`. -/
lemma tun_set_request_error {s : List Nat} {flags : Nat} {e : StringError}
    (h : InterfaceRequest.tun_set_request s flags = .error e) :
    InterfaceName.from_str s = .error e := by
  rw [InterfaceRequest.tun_set_request] at h
  cases hf : InterfaceName.from_str s with
  | ok n => rw [hf] at h; simp [Except.map] at h
  | error e2 => rw [hf] at h; simp only [Except.map, Except.error.injEq] at h; rw [h]

/-- A successful `tun_set_request` pairs the encoded name with the given
flags. -/
lemma tun_set_request_ok {s : List Nat} {flags : Nat} {req : InterfaceRequest}
    (h : InterfaceRequest.tun_set_request s flags = .ok req) :
    InterfaceName.from_str s = .ok req.name ∧ req.flags = flags := by
  rw [InterfaceRequest.tun_set_request] at h
  cases hf : InterfaceName.from_str s with
  | error e => rw [hf] at h; simp [Except.map] at h
  | ok n =>
    rw [hf] at h
    simp only [Except.map, Except.ok.injEq] at h
    subst h
    exact ⟨rfl, rfl⟩

/-- A failing `buildRequest` surfaces exactly the error of `from_str` on the
configured (or empty) name. -/
lemma buildRequest_error {b : DeviceBuilder} {e : StringError}
    (h : buildRequest b = .error e) :
    InterfaceName.from_str (b.name.getD []) = .error e :=
  tun_set_request_error h

/-- A successful `buildRequest` carries the computed flags. -/
lemma buildRequest_ok {b : DeviceBuilder} {req : InterfaceRequest}
    (h : buildRequest b = .ok req) :
    InterfaceName.from_str (b.name.getD []) = .ok req.name ∧
    req.flags = computeFlags b.mode b.packet_info :=
  tun_set_request_ok h

/-- Every `InvalidName` error surfaced by `open` wraps an error of `from_str`
(request building) or of `to_string` (name decoding), hence is
`InvalidCharacter`, `StringTooLong IFNAMSIZ` or `MangledString`. -/
lemma open_invalidName {b : DeviceBuilder} {env : Env} {se : StringError}
    (h : b.open env = .error (.InvalidName se)) :
    (∃ p, se = .InvalidCharacter p) ∨ se = .StringTooLong IFNAMSIZ ∨
      se = .MangledString := by
  rw [DeviceBuilder.open] at h
  cases ho : env.openResult with
  | error k => rw [ho] at h; cases k <;> simp [get_fd] at h
  | ok u =>
    rw [ho] at h
    simp only [get_fd] at h
    cases hb : buildRequest b with
    | error e =>
      rw [hb] at h
      simp only [Except.error.injEq, CreationError.InvalidName.injEq] at h
      subst h
      rcases from_str_error (buildRequest_error hb) with ⟨p, hp⟩ | hp
      · exact Or.inl ⟨p, hp⟩
      · exact Or.inr (Or.inl hp)
    | ok req =>
      rw [hb] at h
      cases hi : env.ioctlResult with
      | error errno => rw [hi] at h; simp [tun_set_interface] at h
      | ok v =>
        rw [hi] at h
        simp only [tun_set_interface] at h
        cases hd : InterfaceName.to_string env.kernelName with
        | error e =>
          rw [hd] at h
          simp only [Except.error.injEq, CreationError.InvalidName.injEq] at h
          subst h
          rcases to_string_error hd with hm | ⟨p, hp⟩
          · exact Or.inr (Or.inr hm)
          · exact Or.inl ⟨p, hp⟩
        | ok nm => rw [hd] at h; simp at h

/-! ### Claims -/

/-- C1: the claimed round trip `decode(encode(s)) = s` fails on the code.  The
input `"a"` (`[97]`) is ASCII, has no zero byte, and is shorter than
`IFNAMSIZ - 1`, yet `from_str` rejects it with `InvalidCharacter 0`: the scan
predicate on line 58 of src/unix/utils.rs (`!x.is_ascii() || (x as u8) != 0`)
fires on every non-null character, so `encode` never succeeds on a non-empty
name. -/
theorem C1_roundtrip_fails_on_a :
    (∀ c ∈ [97], isAscii c = true ∧ c ≠ 0) ∧
    strLen [97] < IFNAMSIZ - 1 ∧
    InterfaceName.from_str [97] = .error (.InvalidCharacter 0) := by
  decide

/-- C2: the claimed equivalence "fails with `InvalidCharacter` iff some char is
non-ASCII" fails on the code: `"eth0"` (`[101, 116, 104, 48]`) is non-empty
and all-ASCII, yet `from_str` fails with `InvalidCharacter 0` instead of
passing the scan, because line 58's predicate fires on every non-null
character. -/
theorem C2_ascii_scan_fails_on_eth0 :
    (∀ c ∈ [101, 116, 104, 48], isAscii c = true) ∧
    InterfaceName.from_str [101, 116, 104, 48] = .error (.InvalidCharacter 0) := by
  decide

/-- C3: the claimed length behaviour fails on the code: a 16-byte ASCII name
(16 times `'a'`) has byte length `IFNAMSIZ` yet fails with
`InvalidCharacter 0` rather than `StringTooLong IFNAMSIZ`, and a valid 15-byte
name fails the same way rather than succeeding — the broken scan on line 58
aborts before the length check is reached (it is reached only for strings of
null characters, e.g. 16 NULs do give `StringTooLong`). -/
theorem C3_length_check_shadowed :
    strLen (List.replicate 16 97) = IFNAMSIZ ∧
    InterfaceName.from_str (List.replicate 16 97) = .error (.InvalidCharacter 0) ∧
    InterfaceName.from_str (List.replicate 15 97) = .error (.InvalidCharacter 0) ∧
    InterfaceName.from_str (List.replicate 16 0) = .error (.StringTooLong IFNAMSIZ) := by
  decide

/-- C4: when opening `/dev/net/tun` fails with I/O error kind `k`,
`DeviceBuilder.open` fails with `FileNotFound` iff `k` is `NotFound`, with
`PermissionDenied` iff `k` is `PermissionDenied`, and with
`UnableToOpenFile k` in every other case. -/
theorem C4_open_error_mapping (b : DeviceBuilder) (env : Env) (k : IOErrorKind)
    (h : env.openResult = .error k) :
    (b.open env = .error .FileNotFound ↔ k = .NotFound) ∧
    (b.open env = .error .PermissionDenied ↔ k = .PermissionDenied) ∧
    (k ≠ .NotFound → k ≠ .PermissionDenied →
      b.open env = .error (.UnableToOpenFile k)) := by
  rw [DeviceBuilder.open, h]
  cases k <;> simp [get_fd]

/-- C4 witness: with the open failing as `NotFound`, `open` reports
`FileNotFound`. -/
theorem C4_open_error_mapping_witness :
    ((DeviceBuilder.mk none .Tun false).open ⟨.error .NotFound, .ok (), .empty⟩ =
        .error .FileNotFound ↔ IOErrorKind.NotFound = .NotFound) ∧
    ((DeviceBuilder.mk none .Tun false).open ⟨.error .NotFound, .ok (), .empty⟩ =
        .error .PermissionDenied ↔ IOErrorKind.NotFound = .PermissionDenied) ∧
    (IOErrorKind.NotFound ≠ .NotFound → IOErrorKind.NotFound ≠ .PermissionDenied →
      (DeviceBuilder.mk none .Tun false).open ⟨.error .NotFound, .ok (), .empty⟩ =
        .error (.UnableToOpenFile .NotFound)) :=
  C4_open_error_mapping (DeviceBuilder.mk none .Tun false)
    ⟨.error .NotFound, .ok (), .empty⟩ .NotFound rfl

/-- C5: the flags put into a successfully built `InterfaceRequest` are the mode
bit (`IFF_TUN` for `Tun`, `IFF_TAP` for `Tap`, never both) OR'd with
`IFF_NO_PI` exactly when packet info is disabled. -/
theorem C5_flags_bitmask (b : DeviceBuilder) (req : InterfaceRequest)
    (h : buildRequest b = .ok req) :
    req.flags = (if b.mode = DeviceMode.Tun then IFF_TUN else IFF_TAP) |||
      (if b.packet_info then 0 else IFF_NO_PI) ∧
    (req.flags &&& IFF_TUN ≠ 0 ↔ b.mode = DeviceMode.Tun) ∧
    (req.flags &&& IFF_TAP ≠ 0 ↔ b.mode = DeviceMode.Tap) ∧
    ¬(req.flags &&& IFF_TUN ≠ 0 ∧ req.flags &&& IFF_TAP ≠ 0) := by
  obtain ⟨-, hf⟩ := buildRequest_ok h
  rw [hf]
  cases hmode : b.mode <;> cases hpi : b.packet_info <;> decide

/-- C5 witness: a Tun builder with packet info off yields flags
`IFF_TUN ||| IFF_NO_PI = 0x1001`. -/
theorem C5_flags_bitmask_witness :
    (InterfaceRequest.mk .empty 0x1001).flags =
      (if (DeviceBuilder.mk none .Tun false).mode = DeviceMode.Tun then IFF_TUN
        else IFF_TAP) |||
      (if (DeviceBuilder.mk none .Tun false).packet_info then 0 else IFF_NO_PI) ∧
    ((InterfaceRequest.mk .empty 0x1001).flags &&& IFF_TUN ≠ 0 ↔
      (DeviceBuilder.mk none .Tun false).mode = DeviceMode.Tun) ∧
    ((InterfaceRequest.mk .empty 0x1001).flags &&& IFF_TAP ≠ 0 ↔
      (DeviceBuilder.mk none .Tun false).mode = DeviceMode.Tap) ∧
    ¬((InterfaceRequest.mk .empty 0x1001).flags &&& IFF_TUN ≠ 0 ∧
      (InterfaceRequest.mk .empty 0x1001).flags &&& IFF_TAP ≠ 0) :=
  C5_flags_bitmask (DeviceBuilder.mk none .Tun false)
    (InterfaceRequest.mk .empty 0x1001) (by decide)

/-- C6: `open` wraps a `StringError` from building the request as
`InvalidName`, propagates an ioctl failure unchanged as `IoctlError`, and
wraps a `StringError` from decoding the kernel-written name as `InvalidName`;
in each case the first failing step determines the result. -/
theorem C6_error_propagation (b : DeviceBuilder) (env : Env) :
    (∀ e, env.openResult = .ok () → buildRequest b = .error e →
      b.open env = .error (.InvalidName e)) ∧
    (∀ req errno, env.openResult = .ok () → buildRequest b = .ok req →
      env.ioctlResult = .error errno →
      b.open env = .error (.IoctlError errno)) ∧
    (∀ req e, env.openResult = .ok () → buildRequest b = .ok req →
      env.ioctlResult = .ok () →
      InterfaceName.to_string env.kernelName = .error e →
      b.open env = .error (.InvalidName e)) := by
  refine ⟨fun e ho hb => ?_, fun req errno ho hb hi => ?_,
    fun req e ho hb hi hd => ?_⟩
  · rw [DeviceBuilder.open, ho, hb]; simp [get_fd]
  · rw [DeviceBuilder.open, ho, hb, hi]; simp [get_fd, tun_set_interface]
  · rw [DeviceBuilder.open, ho, hb, hi]; simp [get_fd, tun_set_interface, hd]

/-- C6 witness: the three propagation cases at concrete inputs — an invalid
requested name, a failing ioctl (errno 5), and a kernel-written buffer with no
terminator. -/
theorem C6_error_propagation_witness :
    (DeviceBuilder.mk (some [97]) .Tun false).open ⟨.ok (), .ok (), .empty⟩ =
      .error (.InvalidName (.InvalidCharacter 0)) ∧
    (DeviceBuilder.mk none .Tun false).open ⟨.ok (), .error 5, .empty⟩ =
      .error (.IoctlError 5) ∧
    (DeviceBuilder.mk none .Tun false).open
        ⟨.ok (), .ok (), ⟨List.replicate 16 97⟩⟩ =
      .error (.InvalidName .MangledString) :=
  ⟨(C6_error_propagation _ _).1 _ rfl (by decide),
   (C6_error_propagation _ _).2.1 ⟨.empty, 0x1001⟩ 5 rfl (by decide) rfl,
   (C6_error_propagation _ _).2.2 ⟨.empty, 0x1001⟩ _ rfl (by decide) rfl (by decide)⟩

/-- C7: on an `IFNAMSIZ`-byte buffer, `to_string` fails with `MangledString`
iff the buffer contains no zero byte; whenever a zero byte exists the result
is never `MangledString`. -/
theorem C7_mangled_iff_no_zero (buf : List Nat) (h : buf.length = IFNAMSIZ) :
    InterfaceName.to_string ⟨buf⟩ = .error .MangledString ↔
      ∀ i ∈ buf, i ≠ 0 := by
  rw [to_string_mangled_iff]
  constructor
  · intro h0 i hi hz
    exact h0 (hz ▸ hi)
  · intro hall h0
    exact hall 0 h0 rfl

/-- C7 witness: a buffer of 16 `'a'` bytes has no zero byte and decodes to
`MangledString`. -/
theorem C7_mangled_iff_no_zero_witness :
    (List.replicate 16 97).length = IFNAMSIZ ∧
    (InterfaceName.to_string ⟨List.replicate 16 97⟩ = .error .MangledString ↔
      ∀ i ∈ List.replicate 16 97, i ≠ 0) :=
  ⟨by decide, C7_mangled_iff_no_zero (List.replicate 16 97) (by decide)⟩

/-- C8: `from_str ""` succeeds with the all-zero `IFNAMSIZ`-byte buffer, and
`to_string` of the all-zero buffer succeeds with the empty string. -/
theorem C8_empty_roundtrip :
    InterfaceName.from_str [] = .ok .empty ∧
    InterfaceName.empty.name = List.replicate IFNAMSIZ 0 ∧
    InterfaceName.to_string .empty = .ok [] := by
  decide

/-- C9: every buffer produced by `InterfaceName.empty` or by a successful
`from_str` contains a zero byte, its last byte (index `IFNAMSIZ - 1`) is zero
— so the text occupies at most `IFNAMSIZ - 1` bytes — and `to_string` on it
never fails with `MangledString`. -/
theorem C9_terminator_invariant (n : InterfaceName)
    (h : n = .empty ∨ ∃ s, InterfaceName.from_str s = .ok n) :
    0 ∈ n.name ∧ n.name[IFNAMSIZ - 1]? = some 0 ∧
    InterfaceName.to_string n ≠ .error .MangledString := by
  have hlast : n.name[IFNAMSIZ - 1]? = some 0 := by
    rcases h with rfl | ⟨s, hs⟩
    · decide
    · exact (from_str_ok hs).2
  have hmem : 0 ∈ n.name := List.getElem?_mem hlast
  refine ⟨hmem, hlast, fun hc => ?_⟩
  rw [to_string_mangled_iff] at hc
  exact hc hmem

/-- C9 witness: the invariant at the buffer returned by `InterfaceName.empty`.
-/
theorem C9_terminator_invariant_witness :
    0 ∈ InterfaceName.empty.name ∧
    InterfaceName.empty.name[IFNAMSIZ - 1]? = some 0 ∧
    InterfaceName.to_string .empty ≠ .error .MangledString :=
  C9_terminator_invariant .empty (Or.inl rfl)

/-- C10: no operation ever surfaces `UnexpectedNull`: `from_str`, `to_string`
and `tun_set_request` never fail with it on any input (zero bytes included),
and `open` never fails with `InvalidName (UnexpectedNull _)` in any
environment. -/
theorem C10_no_unexpected_null (s buf : List Nat) (flags : Nat)
    (b : DeviceBuilder) (env : Env) (p : Nat) :
    InterfaceName.from_str s ≠ .error (.UnexpectedNull p) ∧
    InterfaceName.to_string ⟨buf⟩ ≠ .error (.UnexpectedNull p) ∧
    InterfaceRequest.tun_set_request s flags ≠ .error (.UnexpectedNull p) ∧
    b.open env ≠ .error (.InvalidName (.UnexpectedNull p)) := by
  refine ⟨fun h => ?_, fun h => ?_, fun h => ?_, fun h => ?_⟩
  · rcases from_str_error h with ⟨q, hq⟩ | hq <;> cases hq
  · rcases to_string_error h with hq | ⟨q, hq⟩ <;> cases hq
  · rcases from_str_error (tun_set_request_error h) with ⟨q, hq⟩ | hq <;> cases hq
  · rcases open_invalidName h with ⟨q, hq⟩ | hq | hq <;> cases hq

/-- C10 witness: the statement at a name containing an embedded zero byte
(`[97, 0, 98]`), a zero-containing buffer, and a concrete builder and
environment. -/
theorem C10_no_unexpected_null_witness :
    InterfaceName.from_str [97, 0, 98] ≠ .error (.UnexpectedNull 1) ∧
    InterfaceName.to_string ⟨[97, 0, 98]⟩ ≠ .error (.UnexpectedNull 1) ∧
    InterfaceRequest.tun_set_request [97, 0, 98] 0x1001 ≠
      .error (.UnexpectedNull 1) ∧
    (DeviceBuilder.mk (some [97, 0, 98]) .Tun false).open
        ⟨.ok (), .ok (), .empty⟩ ≠
      .error (.InvalidName (.UnexpectedNull 1)) :=
  C10_no_unexpected_null [97, 0, 98] [97, 0, 98] 0x1001
    (DeviceBuilder.mk (some [97, 0, 98]) .Tun false) ⟨.ok (), .ok (), .empty⟩ 1

end Tippytap
